import Mathlib

/-!
# IntroToDXR: the lifecycle of `DXRApplication` and the host loop of `wWinMain`

A shallow embedding of `src/main.cpp`.  The file is a composition layer: every
statement is a call into a collaborator (window helper, D3D12 helpers, DXR
helpers, Dear ImGui, Win32).  A call is recorded as an event of type `Call`
(inside a lifecycle method) or `MainCall` (inside `wWinMain`), in program
order, together with the arguments the source passes.  What a collaborator
reports back (a status, a descriptor handle, a pending message, a widget
interaction) is taken from an explicit environment record.

Conventions
* `HRESULT`, `int`, `UINT`, `SIZE_T` are `Int`/`Nat`; the two descriptor-handle
  computations wrap explicitly at 32 and 64 bits.
* `float` state (`f`, `clear_color`, the frame-rate text) has no influence on
  control flow and is not represented.
* Every collaborator call returns to its caller, with the one exception of
  `Utils::Validate`, which ends the process on a failure status.
-/

namespace IntroToDXR

/-! ## Win32 and D3D12 vocabulary -/

abbrev HRESULT := Int

def EXIT_SUCCESS : Int := 0

def S_OK : HRESULT := 0

/-- The generic failure status 0x80004005 read as a signed 32-bit value. -/
def E_FAIL : HRESULT := -2147467259

/-- The `FAILED` test of an `HRESULT`: the severity bit is set. -/
def FAILED (hr : HRESULT) : Bool := decide (hr < 0)

def WM_QUIT : Nat := 0x0012

/-- Win32 `MSG`, without the cursor position. -/
structure MSG where
  hwnd : Nat
  message : Nat
  wParam : Nat
  lParam : Nat
  time : Nat
deriving DecidableEq, Repr

/-- The value of `MSG msg = { 0 }`. -/
def MSG.zero : MSG := ⟨0, 0, 0, 0, 0⟩

inductive D3D12_RESOURCE_STATES where
  | COMMON
  | RENDER_TARGET
  | COPY_DEST
  | PRESENT
deriving DecidableEq, Repr

inductive D3D12_RESOURCE_BARRIER_TYPE where
  | TRANSITION
  | ALIASING
  | UAV
deriving DecidableEq, Repr

/-- What `Transition.pResource` points to. -/
inductive Resource where
  | null
  | backBuffer (index : Nat)
deriving DecidableEq, Repr

def D3D12_RESOURCE_BARRIER_ALL_SUBRESOURCES : Nat := 0xffffffff

/-- A `D3D12_RESOURCE_BARRIER` holding a transition. -/
structure D3D12_RESOURCE_BARRIER where
  type : D3D12_RESOURCE_BARRIER_TYPE
  flags : Nat
  pResource : Resource
  Subresource : Nat
  StateBefore : D3D12_RESOURCE_STATES
  StateAfter : D3D12_RESOURCE_STATES
deriving DecidableEq, Repr

/-- The value of `D3D12_RESOURCE_BARRIER OutputBarrier = {}`. -/
def D3D12_RESOURCE_BARRIER.zero : D3D12_RESOURCE_BARRIER :=
  ⟨.TRANSITION, 0, .null, 0, .COMMON, .COMMON⟩

inductive Heap where
  | cbvSrvUavHeap
  | rtvHeap
deriving DecidableEq, Repr

/-! ## Call events -/

/-- One call made by a lifecycle method of `DXRApplication`, with the
arguments that main.cpp computes itself. -/
inductive Call where
  -- Init
  | Window_Create (width height : Int) (inst : Nat) (title : String)
  | Utils_Validate (hr : HRESULT) (msg : String)
  | Utils_LoadModel (model : String)
  | D3DShaders_Init_Shader_Compiler
  | D3D12_Create_Device
  | D3D12_Create_Command_Queue
  | D3D12_Create_Command_Allocator
  | D3D12_Create_Fence
  | D3D12_Create_SwapChain
  | D3D12_Create_CommandList
  | D3D12_Reset_CommandList
  | D3DResources_Create_Descriptor_Heaps
  | D3DResources_Create_BackBuffer_RTV
  | D3DResources_Create_Samplers
  | D3DResources_Create_Vertex_Buffer
  | D3DResources_Create_Index_Buffer
  | D3DResources_Create_Texture
  | D3DResources_Create_View_CB
  | D3DResources_Create_Material_CB
  | DXR_Create_Bottom_Level_AS
  | DXR_Create_Top_Level_AS
  | DXR_Create_DXR_Output
  | DXR_Create_CBVSRVUAV_Heap
  | DXR_Create_RayGen_Program
  | DXR_Create_Miss_Program
  | DXR_Create_Closest_Hit_Program
  | DXR_Create_Pipeline_State_Object
  | DXR_Create_Shader_Table
  | cmdList_Close (ret : HRESULT)
  | cmdQueue_ExecuteCommandLists (count : Nat)
  | D3D12_WaitForGPU
  | IMGUI_CHECKVERSION
  | ImGui_CreateContext
  | ImGui_GetIO
  | ImGui_StyleColorsDark
  | ImGui_ImplWin32_Init
  | device_GetDescriptorHandleIncrementSize
  | GetCPUDescriptorHandleForHeapStart (heap : Heap)
  | GetGPUDescriptorHandleForHeapStart (heap : Heap)
  | ImGui_ImplDX12_Init (numFrames : Nat) (cpuHandle gpuHandle : Nat)
  -- Update
  | ImGui_ImplDX12_NewFrame
  | ImGui_ImplWin32_NewFrame
  | ImGui_NewFrame
  | ImGui_ShowDemoWindow
  | ImGui_Begin (name : String)
  | ImGui_SliderInt (label : String) (v_min v_max : Int)
  | ImGui_Text (fmt : String) (args : List Int)
  | ImGui_Checkbox (label : String)
  | ImGui_SliderFloat (label : String)
  | ImGui_ColorEdit3 (label : String)
  | ImGui_Button (label : String)
  | ImGui_SameLine
  | ImGui_End
  | D3DResources_Update_View_CB
  -- Render
  | DXR_Build_Command_List
  | cmdList_ResourceBarrier (count : Nat) (barrier : D3D12_RESOURCE_BARRIER)
  | cmdList_OMSetRenderTargets (count : Nat) (rtvHandle : Nat)
  | ImGui_Render
  | ImGui_GetDrawData
  | ImGui_ImplDX12_RenderDrawData
  | D3D12_Submit_CmdList
  | D3D12_Present
  | D3D12_MoveToNextFrame
  -- Cleanup
  | CloseHandle_fenceEvent
  | ImGui_ImplDX12_Shutdown
  | ImGui_ImplWin32_Shutdown
  | ImGui_DestroyContext
  | DXR_Destroy
  | D3DResources_Destroy
  | D3DShaders_Destroy
  | D3D12_Destroy
  | DestroyWindow
deriving Repr

/-- One call made by `wWinMain` itself; a lifecycle call carries the calls
made inside it. -/
inductive MainCall where
  | ParseCommandLine (lpCmdLine : String)
  | Init (body : List Call)
  | PeekMessage (ret : Bool)
  | TranslateMessage (msg : MSG)
  | DispatchMessage (msg : MSG)
  | Update (body : List Call)
  | Render (body : List Call)
  | Cleanup (body : List Call)
  | CrtDumpMemoryLeaks
deriving Repr

/-! ## Application state -/

/-- The fields of `ConfigInfo` that main.cpp reads (`instance` is `inst`). -/
structure ConfigInfo where
  width : Int
  height : Int
  model : String
  inst : Nat
deriving Repr

/-- The fields of `D3D12Global` that main.cpp reads or writes. -/
structure D3D12Global where
  width : Int
  height : Int
  frameIndex : Nat
deriving Repr

structure ViewCB where
  nSamples : Int
deriving Repr

/-- The fields of `D3D12Resources` that main.cpp reads or writes. -/
structure D3D12Resources where
  viewCBData : ViewCB
  rtvDescSize : Nat
deriving Repr

/-- The data members of `DXRApplication` that main.cpp reads or writes.  What
they hold once `DXRApplication app;` is constructed depends on the structure
declarations of Graphics.h (the members are declared with `= {}` in main.cpp);
that state is an argument of `wWinMain` and of `session`. -/
structure DXRApplication where
  d3d : D3D12Global
  resources : D3D12Resources
deriving Repr

/-- The function-local statics of `Update` (the two floats apart).  `counter`
is an `int` that only ever grows by one per click; its overflow is not
represented. -/
structure Statics where
  show_demo_window : Bool
  show_another_window : Bool
  counter : Int
deriving Repr

/-- The statics as their initialisers leave them. -/
def Statics.new : Statics :=
  { show_demo_window := false, show_another_window := false, counter := 0 }

/-! ## Environment -/

/-- What the collaborators report to `Init` and `Render`: statuses, descriptor
handles, and the values the helper calls (which receive `d3d` and `resources`
by reference) leave in the fields main.cpp reads later. -/
structure Host where
  /-- Status returned by `Window::Create`. -/
  windowStatus : HRESULT
  /-- Status returned by `d3d.cmdList->Close()` in `Init`. -/
  closeStatus : HRESULT
  /-- Result of `GetDescriptorHandleIncrementSize`, a `UINT`. -/
  handleIncrement : Nat
  cbvSrvUavCpuStart : Nat
  cbvSrvUavGpuStart : Nat
  rtvCpuStart : Nat
  /-- What the helpers of `Init` store in `d3d.frameIndex`; `none` when none
  of them stores to it. -/
  frameIndex : Option Nat
  /-- What the helpers of `Init` store in `resources.rtvDescSize`, if any does. -/
  rtvDescSize : Option Nat
  /-- What the helpers of `Init` store in `resources.viewCBData.nSamples`;
  `none` when none of them stores to it, and the member keeps the value its
  initialiser gave it. -/
  nSamples : Option Int
deriving Repr

/-- What the user does to the widgets during one `Update`. -/
structure UIInput where
  /-- The close box of the demo window was clicked. -/
  demoClosed : Bool
  /-- The value the SPP slider is dragged to, unclamped; `none`: not dragged. -/
  slider : Option Int
  demoToggled : Bool
  anotherToggled : Bool
  buttonClicked : Bool
  /-- The close box of "Another Window" was clicked. -/
  anotherClosed : Bool
  closeMeClicked : Bool
deriving Repr

/-- The environment of one iteration of the host loop.  The queue is given
anew for each iteration, since the system and the window procedures post
messages between two calls of `PeekMessage`. -/
structure Frame where
  /-- The messages pending in the queue when the iteration starts. -/
  pending : List MSG
  ui : UIInput
  /-- Value of `d3d.frameIndex` after `D3D12::MoveToNextFrame`. -/
  nextFrameIndex : Nat
deriving Repr

/-! ## Collaborators whose result main.cpp depends on -/

/-- Modelled from the spec: `Utils::Validate` (not part of the source) ends the
process with a diagnostic when the status is a failure and returns otherwise.
The result is `true` when it returns. -/
def Validate (hr : HRESULT) : Bool := !FAILED hr

/-- Modelled from the spec: `ImGui::SliderInt` (Dear ImGui is not part of the
source) keeps the bound integer within `[v_min, v_max]`: a drag, also an
out-of-range one, stores the clamped value; without a drag the integer is left
as it is.  The second component is the return value (edited or not). -/
def SliderInt (v v_min v_max : Int) (drag : Option Int) : Int × Bool :=
  match drag with
  | none => (v, false)
  | some d => (max v_min (min d v_max), true)

/-- Modelled from the spec: `ImGui::Checkbox` toggles the bound flag on a click. -/
def Checkbox (v : Bool) (clicked : Bool) : Bool := if clicked then !v else v

/-- A window with a close box, `ShowDemoWindow(&open)` or `Begin(name, &open)`:
clicking the box clears the flag (the comment on line 170 of main.cpp). -/
def closeBox (isOpen : Bool) (closed : Bool) : Bool := if closed then false else isOpen

/-- `PeekMessage(&msg, NULL, 0, 0, PM_REMOVE)`: the first pending message, if
any, is removed from the queue and returned. -/
def PeekMessage (queue : List MSG) : Option MSG × List MSG :=
  match queue with
  | [] => (none, [])
  | m :: rest => (some m, rest)

/-! ## DXRApplication -/

structure InitResult where
  trace : List Call
  /-- Whether `Init` returned to its caller (`false`: the process ended). -/
  returned : Bool
  app : DXRApplication
deriving Repr

/-- Lines 53-54 of `Init`: the window and the validation of its status. -/
def Init_window (config : ConfigInfo) (host : Host) : List Call :=
  [ Call.Window_Create config.width config.height config.inst "Introduction to DXR",
    Call.Utils_Validate host.windowStatus "Error: failed to create window!" ]

/-- Lines 60-93 of `Init`: model, shader compiler, D3D12, common resources,
DXR resources. -/
def Init_create (config : ConfigInfo) : List Call :=
  [ Call.Utils_LoadModel config.model,
    Call.D3DShaders_Init_Shader_Compiler,
    Call.D3D12_Create_Device,
    Call.D3D12_Create_Command_Queue,
    Call.D3D12_Create_Command_Allocator,
    Call.D3D12_Create_Fence,
    Call.D3D12_Create_SwapChain,
    Call.D3D12_Create_CommandList,
    Call.D3D12_Reset_CommandList,
    Call.D3DResources_Create_Descriptor_Heaps,
    Call.D3DResources_Create_BackBuffer_RTV,
    Call.D3DResources_Create_Samplers,
    Call.D3DResources_Create_Vertex_Buffer,
    Call.D3DResources_Create_Index_Buffer,
    Call.D3DResources_Create_Texture,
    Call.D3DResources_Create_View_CB,
    Call.D3DResources_Create_Material_CB,
    Call.DXR_Create_Bottom_Level_AS,
    Call.DXR_Create_Top_Level_AS,
    Call.DXR_Create_DXR_Output,
    Call.DXR_Create_CBVSRVUAV_Heap,
    Call.DXR_Create_RayGen_Program,
    Call.DXR_Create_Miss_Program,
    Call.DXR_Create_Closest_Hit_Program,
    Call.DXR_Create_Pipeline_State_Object,
    Call.DXR_Create_Shader_Table ]

/-- Lines 95-100 of `Init`: the status of `Close` is dropped. -/
def Init_submit (host : Host) : List Call :=
  [ Call.cmdList_Close host.closeStatus,
    Call.cmdQueue_ExecuteCommandLists 1,
    Call.D3D12_WaitForGPU,
    Call.D3D12_Reset_CommandList ]

/-- `handle.ptr += 7 * handleIncrement`: a `UINT` product added to a 64-bit
pointer. -/
def fontHandle (start handleIncrement : Nat) : Nat :=
  (start + (7 * handleIncrement) % 2 ^ 32) % 2 ^ 64

/-- Lines 103-123 of `Init`: the Dear ImGui context and bindings. -/
def Init_imgui (host : Host) : List Call :=
  let NUM_FRAMES_IN_FLIGHT := 2
  let handleIncrement := host.handleIncrement
  let cpuHandle := fontHandle host.cbvSrvUavCpuStart handleIncrement
  let gpuHandle := fontHandle host.cbvSrvUavGpuStart handleIncrement
  [ Call.IMGUI_CHECKVERSION,
    Call.ImGui_CreateContext,
    Call.ImGui_GetIO,
    Call.ImGui_StyleColorsDark,
    Call.ImGui_ImplWin32_Init,
    Call.device_GetDescriptorHandleIncrementSize,
    Call.GetCPUDescriptorHandleForHeapStart Heap.cbvSrvUavHeap,
    Call.GetGPUDescriptorHandleForHeapStart Heap.cbvSrvUavHeap,
    Call.ImGui_ImplDX12_Init NUM_FRAMES_IN_FLIGHT cpuHandle gpuHandle ]

/-- `DXRApplication::Init`. -/
def Init (app : DXRApplication) (config : ConfigInfo) (host : Host) : InitResult :=
  let hr := host.windowStatus
  let t := Init_window config host
  if Validate hr then
    let d3d := { app.d3d with width := config.width, height := config.height }
    let t := t ++ Init_create config
    let d3d := { d3d with frameIndex := host.frameIndex.getD d3d.frameIndex }
    let resources : D3D12Resources :=
      { viewCBData := { nSamples := host.nSamples.getD app.resources.viewCBData.nSamples },
        rtvDescSize := host.rtvDescSize.getD app.resources.rtvDescSize }
    let t := t ++ Init_submit host
    let t := t ++ Init_imgui host
    { trace := t, returned := true, app := { d3d := d3d, resources := resources } }
  else
    { trace := t, returned := false, app := app }

/-- `DXRApplication::Update`, with the statics passed explicitly. -/
def Update (app : DXRApplication) (st : Statics) (inp : UIInput) :
    DXRApplication × Statics × List Call :=
  let t := [Call.ImGui_ImplDX12_NewFrame, Call.ImGui_ImplWin32_NewFrame, Call.ImGui_NewFrame]
  -- 1. the demo window
  let show_demo_window := st.show_demo_window
  let t := if show_demo_window then t ++ [Call.ImGui_ShowDemoWindow] else t
  let show_demo_window :=
    if show_demo_window then closeBox show_demo_window inp.demoClosed else show_demo_window
  -- 2. the "Hello, world!" window
  let t := t ++ [Call.ImGui_Begin "Hello, world!"]
  let nSamples := (SliderInt app.resources.viewCBData.nSamples 1 4 inp.slider).1
  let t := t ++ [Call.ImGui_SliderInt "SPP" 1 4]
  let t := t ++ [Call.ImGui_Text "This is some useful text." []]
  let show_demo_window := Checkbox show_demo_window inp.demoToggled
  let t := t ++ [Call.ImGui_Checkbox "Demo Window"]
  let show_another_window := Checkbox st.show_another_window inp.anotherToggled
  let t := t ++ [Call.ImGui_Checkbox "Another Window"]
  let t := t ++ [Call.ImGui_SliderFloat "float", Call.ImGui_ColorEdit3 "clear color"]
  let t := t ++ [Call.ImGui_Button "Button"]
  let counter := if inp.buttonClicked then st.counter + 1 else st.counter
  let t := t ++ [Call.ImGui_SameLine, Call.ImGui_Text "counter = %d" [counter]]
  let t := t ++ [Call.ImGui_GetIO, Call.ImGui_GetIO,
    Call.ImGui_Text "Application average %.3f ms/frame (%.1f FPS)" [], Call.ImGui_End]
  -- 3. the other window
  let t :=
    if show_another_window then
      t ++ [Call.ImGui_Begin "Another Window", Call.ImGui_Text "Hello from another window!" [],
            Call.ImGui_Button "Close Me", Call.ImGui_End]
    else t
  let show_another_window :=
    if show_another_window then
      let open1 := closeBox show_another_window inp.anotherClosed
      if inp.closeMeClicked then false else open1
    else show_another_window
  let t := t ++ [Call.D3DResources_Update_View_CB]
  ({ app with resources := { app.resources with viewCBData := { nSamples := nSamples } } },
   { show_demo_window := show_demo_window, show_another_window := show_another_window,
     counter := counter },
   t)

/-- `rtvHandle.ptr += d3d.frameIndex * resources.rtvDescSize`: a `UINT` product
added to a 64-bit pointer. -/
def rtvHandle (start frameIndex rtvDescSize : Nat) : Nat :=
  (start + (frameIndex * rtvDescSize) % 2 ^ 32) % 2 ^ 64

/-- `DXRApplication::Render`; `nextFrameIndex` is what `MoveToNextFrame`
stores in `d3d.frameIndex`. -/
def Render (app : DXRApplication) (host : Host) (nextFrameIndex : Nat) :
    DXRApplication × List Call :=
  let d3d := app.d3d
  let t := [Call.DXR_Build_Command_List]
  let OutputBarrier := D3D12_RESOURCE_BARRIER.zero
  -- Transition the back buffer to a copy destination
  let OutputBarrier := { OutputBarrier with pResource := Resource.backBuffer d3d.frameIndex }
  let OutputBarrier := { OutputBarrier with StateBefore := D3D12_RESOURCE_STATES.COPY_DEST }
  let OutputBarrier := { OutputBarrier with StateAfter := D3D12_RESOURCE_STATES.RENDER_TARGET }
  let OutputBarrier :=
    { OutputBarrier with Subresource := D3D12_RESOURCE_BARRIER_ALL_SUBRESOURCES }
  let t := t ++ [Call.cmdList_ResourceBarrier 1 OutputBarrier]
  let t := t ++ [Call.GetCPUDescriptorHandleForHeapStart Heap.rtvHeap]
  let handle := rtvHandle host.rtvCpuStart d3d.frameIndex app.resources.rtvDescSize
  let t := t ++ [Call.cmdList_OMSetRenderTargets 1 handle]
  let t := t ++ [Call.ImGui_Render, Call.ImGui_GetDrawData, Call.ImGui_ImplDX12_RenderDrawData]
  -- Transition back buffer to present
  let OutputBarrier := { OutputBarrier with StateBefore := D3D12_RESOURCE_STATES.RENDER_TARGET }
  let OutputBarrier := { OutputBarrier with StateAfter := D3D12_RESOURCE_STATES.PRESENT }
  let t := t ++ [Call.cmdList_ResourceBarrier 1 OutputBarrier]
  -- Submit the command list and wait for the GPU to idle
  let t := t ++ [Call.D3D12_Submit_CmdList, Call.D3D12_WaitForGPU]
  let t := t ++ [Call.D3D12_Present, Call.D3D12_MoveToNextFrame]
  let d3d := { d3d with frameIndex := nextFrameIndex }
  let t := t ++ [Call.D3D12_Reset_CommandList]
  ({ app with d3d := d3d }, t)

/-- `DXRApplication::Cleanup`. -/
def Cleanup : List Call :=
  [ Call.D3D12_WaitForGPU,
    Call.CloseHandle_fenceEvent,
    Call.ImGui_ImplDX12_Shutdown,
    Call.ImGui_ImplWin32_Shutdown,
    Call.ImGui_DestroyContext,
    Call.DXR_Destroy,
    Call.D3DResources_Destroy,
    Call.D3DShaders_Destroy,
    Call.D3D12_Destroy,
    Call.DestroyWindow ]

/-! ## wWinMain -/

/-- How a run of `wWinMain` ends. -/
inductive Exit where
  /-- `wWinMain` returned this status. -/
  | returned (status : Int)
  /-- The process ended inside `Init`. -/
  | fatal
  /-- The supplied frames were used up and the loop is still iterating. -/
  | running
deriving DecidableEq, Repr

structure Run where
  trace : List MainCall
  exit : Exit
deriving Repr

/-- The result of one pass through the body of the `while` loop. -/
structure Iteration where
  app : DXRApplication
  st : Statics
  msg : MSG
  trace : List MainCall
  /-- The messages still pending when the body ends. -/
  rest : List MSG
deriving Repr

/-- The body of the `while` loop (lines 271-278).  When `PeekMessage` finds no
message it returns `FALSE` and `msg` keeps its previous contents. -/
def iteration (host : Host) (app : DXRApplication) (st : Statics) (msg : MSG) (fr : Frame) :
    Iteration :=
  let peek := PeekMessage fr.pending
  let msg1 := match peek.1 with
    | some m => m
    | none => msg
  let t := match peek.1 with
    | some m => [MainCall.PeekMessage true, MainCall.TranslateMessage m, MainCall.DispatchMessage m]
    | none => [MainCall.PeekMessage false]
  let u := Update app st fr.ui
  let t := t ++ [MainCall.Update u.2.2]
  let r := Render u.1 host fr.nextFrameIndex
  let t := t ++ [MainCall.Render r.2]
  { app := r.1, st := u.2.1, msg := msg1, trace := t, rest := peek.2 }

/-- The `while (WM_QUIT != msg.message)` loop, one frame of environment per
iteration.  The flag is `true` when the loop was left and `false` when the
frames ran out first. -/
def mainLoop (host : Host) (app : DXRApplication) (st : Statics) (msg : MSG) :
    List Frame → List MainCall × Bool
  | [] => ([], decide (WM_QUIT = msg.message))
  | fr :: frs =>
    if WM_QUIT ≠ msg.message then
      let it := iteration host app st msg fr
      let r := mainLoop host it.app it.st it.msg frs
      (it.trace ++ r.1, r.2)
    else ([], true)

/-- `wWinMain`.  `parse` is `Utils::ParseCommandLine` (status and filled-in
configuration), `debug` says whether `_CRTDBG_MAP_ALLOC` is defined, `app0` is
the application object as `DXRApplication app;` constructs it. -/
def wWinMain (parse : String → HRESULT × ConfigInfo) (debug : Bool) (lpCmdLine : String)
    (app0 : DXRApplication) (host : Host) (frames : List Frame) : Run :=
  let msg := MSG.zero
  let p := parse lpCmdLine
  let hr := p.1
  let config := p.2
  let t := [MainCall.ParseCommandLine lpCmdLine]
  if hr ≠ EXIT_SUCCESS then { trace := t, exit := Exit.returned hr }
  else
    let i := Init app0 config host
    let t := t ++ [MainCall.Init i.trace]
    if i.returned then
      let l := mainLoop host i.app Statics.new msg frames
      let t := t ++ l.1
      if l.2 then
        let t := t ++ [MainCall.Cleanup Cleanup]
        let t := if debug then t ++ [MainCall.CrtDumpMemoryLeaks] else t
        { trace := t, exit := Exit.returned hr }
      else { trace := t, exit := Exit.running }
    else { trace := t, exit := Exit.fatal }

/-! ## Observations on traces -/

/-- Whether a call of `wWinMain` is one of the four lifecycle calls. -/
def MainCall.isLifecycle : MainCall → Bool
  | MainCall.Init _ => true
  | MainCall.Update _ => true
  | MainCall.Render _ => true
  | MainCall.Cleanup _ => true
  | _ => false

/-- The messages dispatched in a trace of `wWinMain` before its first call of
`Update`. -/
def dispatchedBeforeUpdate : List MainCall → List MSG
  | [] => []
  | MainCall.Update _ :: _ => []
  | MainCall.DispatchMessage m :: rest => m :: dispatchedBeforeUpdate rest
  | _ :: rest => dispatchedBeforeUpdate rest

/-- The messages translated in a trace of `wWinMain` before its first call of
`Update`. -/
def translatedBeforeUpdate : List MainCall → List MSG
  | [] => []
  | MainCall.Update _ :: _ => []
  | MainCall.TranslateMessage m :: rest => m :: translatedBeforeUpdate rest
  | _ :: rest => translatedBeforeUpdate rest

/-- The calls of `Render` that the barrier contract speaks about. -/
inductive RenderMark where
  | build
  | barrier (count : Nat) (b : D3D12_RESOURCE_BARRIER)
  | uiDraw
  | submit
deriving DecidableEq, Repr

def Call.renderMark : Call → Option RenderMark
  | Call.DXR_Build_Command_List => some RenderMark.build
  | Call.cmdList_ResourceBarrier n b => some (RenderMark.barrier n b)
  | Call.ImGui_ImplDX12_RenderDrawData => some RenderMark.uiDraw
  | Call.D3D12_Submit_CmdList => some RenderMark.submit
  | Call.cmdQueue_ExecuteCommandLists _ => some RenderMark.submit
  | _ => none

/-- The steps of initialisation that the spec names. -/
inductive Step where
  | windowCreation
  | modelLoad
  | shaderCompilerInit
  | device
  | commandQueue
  | commandAllocator
  | fence
  | swapChain
  | commandList
  | descriptorHeaps
  | backBufferRTV
  | samplers
  | vertexBuffer
  | indexBuffer
  | texture
  | viewCB
  | materialCB
  | bottomLevelAS
  | topLevelAS
  | dxrOutput
  | cbvSrvUavHeap
  | rayGenProgram
  | missProgram
  | closestHitProgram
  | pipelineStateObject
  | shaderTable
  | submission
  | gpuWait
  | commandListReset
  | uiBinding
deriving DecidableEq, Repr

/-- The step a call performs, if it performs one.  The UI binding is the one
set up against the descriptor slot, `ImGui_ImplDX12_Init`. -/
def Call.step : Call → Option Step
  | Call.Window_Create _ _ _ _ => some Step.windowCreation
  | Call.Utils_LoadModel _ => some Step.modelLoad
  | Call.D3DShaders_Init_Shader_Compiler => some Step.shaderCompilerInit
  | Call.D3D12_Create_Device => some Step.device
  | Call.D3D12_Create_Command_Queue => some Step.commandQueue
  | Call.D3D12_Create_Command_Allocator => some Step.commandAllocator
  | Call.D3D12_Create_Fence => some Step.fence
  | Call.D3D12_Create_SwapChain => some Step.swapChain
  | Call.D3D12_Create_CommandList => some Step.commandList
  | Call.D3DResources_Create_Descriptor_Heaps => some Step.descriptorHeaps
  | Call.D3DResources_Create_BackBuffer_RTV => some Step.backBufferRTV
  | Call.D3DResources_Create_Samplers => some Step.samplers
  | Call.D3DResources_Create_Vertex_Buffer => some Step.vertexBuffer
  | Call.D3DResources_Create_Index_Buffer => some Step.indexBuffer
  | Call.D3DResources_Create_Texture => some Step.texture
  | Call.D3DResources_Create_View_CB => some Step.viewCB
  | Call.D3DResources_Create_Material_CB => some Step.materialCB
  | Call.DXR_Create_Bottom_Level_AS => some Step.bottomLevelAS
  | Call.DXR_Create_Top_Level_AS => some Step.topLevelAS
  | Call.DXR_Create_DXR_Output => some Step.dxrOutput
  | Call.DXR_Create_CBVSRVUAV_Heap => some Step.cbvSrvUavHeap
  | Call.DXR_Create_RayGen_Program => some Step.rayGenProgram
  | Call.DXR_Create_Miss_Program => some Step.missProgram
  | Call.DXR_Create_Closest_Hit_Program => some Step.closestHitProgram
  | Call.DXR_Create_Pipeline_State_Object => some Step.pipelineStateObject
  | Call.DXR_Create_Shader_Table => some Step.shaderTable
  | Call.cmdQueue_ExecuteCommandLists _ => some Step.submission
  | Call.D3D12_Submit_CmdList => some Step.submission
  | Call.D3D12_WaitForGPU => some Step.gpuWait
  | Call.D3D12_Reset_CommandList => some Step.commandListReset
  | Call.ImGui_ImplDX12_Init _ _ _ => some Step.uiBinding
  | _ => none

/-- The order of initialisation in the words of the spec (section 4.1). -/
def specOrder : List Step :=
  [ Step.windowCreation, Step.modelLoad, Step.shaderCompilerInit,
    Step.device, Step.commandQueue, Step.commandAllocator, Step.fence, Step.swapChain,
    Step.commandList,
    Step.descriptorHeaps, Step.backBufferRTV, Step.samplers, Step.vertexBuffer,
    Step.indexBuffer, Step.texture, Step.viewCB, Step.materialCB,
    Step.bottomLevelAS, Step.topLevelAS, Step.dxrOutput, Step.cbvSrvUavHeap,
    Step.rayGenProgram, Step.missProgram, Step.closestHitProgram,
    Step.pipelineStateObject, Step.shaderTable,
    Step.submission, Step.gpuWait, Step.commandListReset, Step.uiBinding ]

/-- The subsystems that `Init` sets up and `Cleanup` tears down. -/
inductive Subsystem where
  | window
  | shaderCompiler
  | graphicsContext
  | gpuResources
  | rayTracing
  | ui
deriving DecidableEq, Repr

/-- The subsystem a call of `Init` creates (part of), by the helper module the
call belongs to. -/
def Call.creates : Call → Option Subsystem
  | Call.Window_Create _ _ _ _ => some Subsystem.window
  | Call.D3DShaders_Init_Shader_Compiler => some Subsystem.shaderCompiler
  | Call.D3D12_Create_Device => some Subsystem.graphicsContext
  | Call.D3D12_Create_Command_Queue => some Subsystem.graphicsContext
  | Call.D3D12_Create_Command_Allocator => some Subsystem.graphicsContext
  | Call.D3D12_Create_Fence => some Subsystem.graphicsContext
  | Call.D3D12_Create_SwapChain => some Subsystem.graphicsContext
  | Call.D3D12_Create_CommandList => some Subsystem.graphicsContext
  | Call.D3DResources_Create_Descriptor_Heaps => some Subsystem.gpuResources
  | Call.D3DResources_Create_BackBuffer_RTV => some Subsystem.gpuResources
  | Call.D3DResources_Create_Samplers => some Subsystem.gpuResources
  | Call.D3DResources_Create_Vertex_Buffer => some Subsystem.gpuResources
  | Call.D3DResources_Create_Index_Buffer => some Subsystem.gpuResources
  | Call.D3DResources_Create_Texture => some Subsystem.gpuResources
  | Call.D3DResources_Create_View_CB => some Subsystem.gpuResources
  | Call.D3DResources_Create_Material_CB => some Subsystem.gpuResources
  | Call.DXR_Create_Bottom_Level_AS => some Subsystem.rayTracing
  | Call.DXR_Create_Top_Level_AS => some Subsystem.rayTracing
  | Call.DXR_Create_DXR_Output => some Subsystem.rayTracing
  | Call.DXR_Create_CBVSRVUAV_Heap => some Subsystem.rayTracing
  | Call.DXR_Create_RayGen_Program => some Subsystem.rayTracing
  | Call.DXR_Create_Miss_Program => some Subsystem.rayTracing
  | Call.DXR_Create_Closest_Hit_Program => some Subsystem.rayTracing
  | Call.DXR_Create_Pipeline_State_Object => some Subsystem.rayTracing
  | Call.DXR_Create_Shader_Table => some Subsystem.rayTracing
  | Call.ImGui_CreateContext => some Subsystem.ui
  | Call.ImGui_ImplWin32_Init => some Subsystem.ui
  | Call.ImGui_ImplDX12_Init _ _ _ => some Subsystem.ui
  | _ => none

/-- The subsystem a call of `Cleanup` destroys (part of). -/
def Call.destroys : Call → Option Subsystem
  | Call.ImGui_ImplDX12_Shutdown => some Subsystem.ui
  | Call.ImGui_ImplWin32_Shutdown => some Subsystem.ui
  | Call.ImGui_DestroyContext => some Subsystem.ui
  | Call.DXR_Destroy => some Subsystem.rayTracing
  | Call.D3DResources_Destroy => some Subsystem.gpuResources
  | Call.D3DShaders_Destroy => some Subsystem.shaderCompiler
  | Call.D3D12_Destroy => some Subsystem.graphicsContext
  | Call.DestroyWindow => some Subsystem.window
  | _ => none

/-- The subsystems in the order in which a trace first creates them. -/
def createdOrder (t : List Call) : List Subsystem := (t.filterMap Call.creates).eraseDups

/-- The subsystems in the order in which a trace first destroys them. -/
def destroyedOrder (t : List Call) : List Subsystem := (t.filterMap Call.destroys).eraseDups

/-- What a call of `Cleanup` does. -/
inductive CleanupMark where
  | gpuWait
  | fenceHandleRelease
  | destroy (s : Subsystem)
deriving DecidableEq, Repr

def Call.cleanupMark : Call → Option CleanupMark
  | Call.D3D12_WaitForGPU => some CleanupMark.gpuWait
  | Call.CloseHandle_fenceEvent => some CleanupMark.fenceHandleRelease
  | c => (Call.destroys c).map CleanupMark.destroy

/-- The synchronisation state of the command list: no submission pending, or
one submission pending since the last reset, with the number of GPU waits made
since it was submitted. -/
inductive Sync where
  | idle
  | pending (waits : Nat)
deriving DecidableEq, Repr

/-- One call seen by the synchronisation monitor.  The monitor rejects
(`none`) a submission made while another one is pending, and a reset of the
command list made when the pending submission has not been waited for exactly
once. -/
def Sync.step (s : Sync) (c : Call) : Option Sync :=
  match c.step, s with
  | some Step.submission, Sync.idle => some (Sync.pending 0)
  | some Step.submission, Sync.pending _ => none
  | some Step.gpuWait, Sync.idle => some Sync.idle
  | some Step.gpuWait, Sync.pending k => some (Sync.pending (k + 1))
  | some Step.commandListReset, Sync.idle => some Sync.idle
  | some Step.commandListReset, Sync.pending k => if k = 1 then some Sync.idle else none
  | _, s => some s

def Sync.run : Sync → List Call → Option Sync
  | s, [] => some s
  | s, c :: cs => (s.step c).bind (fun s1 => Sync.run s1 cs)

/-- Every submission of the trace is followed by exactly one GPU wait before
the next reset of the command list, no submission is made while another is
pending, and nothing is pending at the end. -/
def synchronised (t : List Call) : Bool := decide (Sync.run Sync.idle t = some Sync.idle)

/-- The number of submissions not yet followed by a GPU wait, after the calls
of a trace, starting from `n` such submissions. -/
def inFlightFrom : Nat → List Call → Nat
  | n, [] => n
  | n, c :: cs =>
    match c.step with
    | some Step.submission => inFlightFrom (n + 1) cs
    | some Step.gpuWait => inFlightFrom 0 cs
    | _ => inFlightFrom n cs

/-- The number of submissions in flight at the end of a trace. -/
def inFlight (t : List Call) : Nat := inFlightFrom 0 t

/-- The submissions in flight in a state of the monitor. -/
def Sync.flying : Sync → Nat
  | Sync.idle => 0
  | Sync.pending 0 => 1
  | Sync.pending (_ + 1) => 0

/-- The number of command-list submissions in a trace. -/
def submissions (t : List Call) : Nat := (t.filterMap Call.step).count Step.submission

/-- The calls of `Update` and `Render`, alternating, one pair per frame. -/
def frameCalls (host : Host) : DXRApplication → Statics → List Frame → List Call
  | _, _, [] => []
  | app, st, fr :: frs =>
    let u := Update app st fr.ui
    let r := Render u.1 host fr.nextFrameIndex
    u.2.2 ++ r.2 ++ frameCalls host r.1 u.2.1 frs

/-- The calls of `Init` followed by the calls of one `Update` and one `Render`
per frame; when `Init` does not return there are no frames. -/
def session (app0 : DXRApplication) (config : ConfigInfo) (host : Host) (frames : List Frame) :
    List Call :=
  let i := Init app0 config host
  if i.returned then i.trace ++ frameCalls host i.app Statics.new frames else i.trace

/-- Which function a call of `wWinMain` goes to. -/
inductive Kind where
  | parseCommandLine
  | init
  | peekMessage
  | translateMessage
  | dispatchMessage
  | update
  | render
  | cleanup
  | dumpMemoryLeaks
deriving DecidableEq, Repr

def MainCall.kind : MainCall → Kind
  | MainCall.ParseCommandLine _ => Kind.parseCommandLine
  | MainCall.Init _ => Kind.init
  | MainCall.PeekMessage _ => Kind.peekMessage
  | MainCall.TranslateMessage _ => Kind.translateMessage
  | MainCall.DispatchMessage _ => Kind.dispatchMessage
  | MainCall.Update _ => Kind.update
  | MainCall.Render _ => Kind.render
  | MainCall.Cleanup _ => Kind.cleanup
  | MainCall.CrtDumpMemoryLeaks => Kind.dumpMemoryLeaks

def Kind.isLifecycle : Kind → Bool
  | Kind.init => true
  | Kind.update => true
  | Kind.render => true
  | Kind.cleanup => true
  | _ => false

/-- Whether the `PeekMessage` of an iteration run in this frame retrieves a
quit message. -/
def Frame.retrievesQuit (fr : Frame) : Bool :=
  match (PeekMessage fr.pending).1 with
  | some m => decide (m.message = WM_QUIT)
  | none => false

/-- The calls expected of one iteration: the peek, the translation and the
dispatch when a message was pending, then `Update` and `Render`. -/
def Frame.kinds (fr : Frame) : List Kind :=
  (if fr.pending.isEmpty then [Kind.peekMessage]
   else [Kind.peekMessage, Kind.translateMessage, Kind.dispatchMessage])
  ++ [Kind.update, Kind.render]

/-- The loop body run once per frame, without the loop test. -/
def runFrames (host : Host) :
    DXRApplication → Statics → MSG → List Frame → (DXRApplication × Statics × MSG) × List MainCall
  | app, st, msg, [] => ((app, st, msg), [])
  | app, st, msg, fr :: frs =>
    let it := iteration host app st msg fr
    let r := runFrames host it.app it.st it.msg frs
    (r.1, it.trace ++ r.2)

/-! ## Sample inputs -/

def sampleConfig : ConfigInfo := { width := 1280, height := 720, model := "quad.obj", inst := 1 }

/-- A sample state of the application object before `Init`. -/
def sampleApp : DXRApplication :=
  { d3d := { width := 0, height := 0, frameIndex := 0 },
    resources := { viewCBData := { nSamples := 1 }, rtvDescSize := 0 } }

/-- A host on which every status is a success. -/
def sampleHost : Host :=
  { windowStatus := S_OK, closeStatus := S_OK, handleIncrement := 32,
    cbvSrvUavCpuStart := 4096, cbvSrvUavGpuStart := 8192, rtvCpuStart := 12288,
    frameIndex := some 0, rtvDescSize := some 32, nSamples := none }

/-- No widget is touched. -/
def idleInput : UIInput :=
  { demoClosed := false, slider := none, demoToggled := false, anotherToggled := false,
    buttonClicked := false, anotherClosed := false, closeMeClicked := false }

def WM_PAINT : Nat := 0x000F

def WM_KEYDOWN : Nat := 0x0100

def paintMsg : MSG := { hwnd := 1, message := WM_PAINT, wParam := 0, lParam := 0, time := 10 }

def keyMsg : MSG := { hwnd := 1, message := WM_KEYDOWN, wParam := 65, lParam := 0, time := 11 }

def quitMsg : MSG := { hwnd := 0, message := WM_QUIT, wParam := 0, lParam := 0, time := 12 }

/-- Two messages pending. -/
def busyFrame : Frame := { pending := [paintMsg, keyMsg], ui := idleInput, nextFrameIndex := 1 }

/-- No message pending. -/
def quietFrame : Frame := { pending := [], ui := idleInput, nextFrameIndex := 0 }

/-- The quit message is the first one pending. -/
def quitFrame : Frame := { pending := [quitMsg], ui := idleInput, nextFrameIndex := 1 }

/-- A command-line parser that accepts every command line. -/
def acceptingParse : String → HRESULT × ConfigInfo := fun _ => (EXIT_SUCCESS, sampleConfig)

/-! ## The parse-failure path -/

/-- C1: when `Utils::ParseCommandLine` returns a status other than
`EXIT_SUCCESS`, `wWinMain` returns exactly that status, which is not zero, and
its whole call trace is the single call of `ParseCommandLine`: no `Init`,
`Update`, `Render` or `Cleanup`, and no `PeekMessage`. -/
theorem wWinMain_parse_failure (parse : String → HRESULT × ConfigInfo) (debug : Bool)
    (lpCmdLine : String) (app0 : DXRApplication) (host : Host) (frames : List Frame)
    (h : (parse lpCmdLine).1 ≠ EXIT_SUCCESS) :
    (wWinMain parse debug lpCmdLine app0 host frames).exit = Exit.returned (parse lpCmdLine).1 ∧
    (parse lpCmdLine).1 ≠ 0 ∧
    (wWinMain parse debug lpCmdLine app0 host frames).trace = [MainCall.ParseCommandLine lpCmdLine] ∧
    ((wWinMain parse debug lpCmdLine app0 host frames).trace.filter MainCall.isLifecycle) = [] := by
  have h0 : (parse lpCmdLine).1 ≠ 0 := h
  simp [wWinMain, h, h0, MainCall.isLifecycle]

theorem wWinMain_parse_failure_witness :
    ((fun _ : String => ((1 : HRESULT), sampleConfig)) "-width").1 ≠ EXIT_SUCCESS ∧
    ((wWinMain (fun _ => (1, sampleConfig)) true "-width" sampleApp sampleHost
        [{ pending := [quitMsg], ui := idleInput, nextFrameIndex := 1 }]).exit
      = Exit.returned ((fun _ : String => ((1 : HRESULT), sampleConfig)) "-width").1 ∧
     ((fun _ : String => ((1 : HRESULT), sampleConfig)) "-width").1 ≠ 0 ∧
     (wWinMain (fun _ => (1, sampleConfig)) true "-width" sampleApp sampleHost
        [{ pending := [quitMsg], ui := idleInput, nextFrameIndex := 1 }]).trace
      = [MainCall.ParseCommandLine "-width"] ∧
     ((wWinMain (fun _ => (1, sampleConfig)) true "-width" sampleApp sampleHost
        [{ pending := [quitMsg], ui := idleInput, nextFrameIndex := 1 }]).trace.filter
        MainCall.isLifecycle) = []) :=
  ⟨by decide, wWinMain_parse_failure (fun _ => (1, sampleConfig)) true "-width" sampleApp sampleHost
    [{ pending := [quitMsg], ui := idleInput, nextFrameIndex := 1 }] (by decide)⟩

/-! ## One iteration of the host loop -/

/-- C2 (as the code has it): one iteration of the host loop removes at most
one pending message.  Its calls are, in this order: `PeekMessage`; when a
message was pending, `TranslateMessage` and then `DispatchMessage` of the first
pending message and of no other; `Update`; `Render` on the state `Update`
left.  `Update` and `Render` are called whether or not a message was pending.
All the messages after the first are still pending when the iteration ends. -/
theorem iteration_dispatches_first_only (host : Host) (app : DXRApplication) (st : Statics)
    (msg : MSG) (fr : Frame) :
    (iteration host app st msg fr).trace =
      (match fr.pending with
        | [] => [MainCall.PeekMessage false]
        | m :: _ =>
          [MainCall.PeekMessage true, MainCall.TranslateMessage m, MainCall.DispatchMessage m]) ++
      [ MainCall.Update (Update app st fr.ui).2.2,
        MainCall.Render (Render (Update app st fr.ui).1 host fr.nextFrameIndex).2 ] ∧
    (iteration host app st msg fr).trace.map MainCall.kind =
      (if fr.pending.isEmpty then [Kind.peekMessage]
       else [Kind.peekMessage, Kind.translateMessage, Kind.dispatchMessage]) ++
      [Kind.update, Kind.render] ∧
    dispatchedBeforeUpdate (iteration host app st msg fr).trace = fr.pending.take 1 ∧
    translatedBeforeUpdate (iteration host app st msg fr).trace = fr.pending.take 1 ∧
    (iteration host app st msg fr).rest = fr.pending.drop 1 ∧
    (iteration host app st msg fr).rest.length = fr.pending.length - 1 := by
  cases hp : fr.pending with
  | nil =>
    simp [iteration, PeekMessage, hp, dispatchedBeforeUpdate, translatedBeforeUpdate,
      MainCall.kind]
  | cons m rest =>
    simp [iteration, PeekMessage, hp, dispatchedBeforeUpdate, translatedBeforeUpdate,
      MainCall.kind]

/-- C2 fails as stated: with two messages pending at the start of an
iteration, only the first is dispatched before `Update` and the second is
still pending afterwards. -/
theorem iteration_leaves_second_message :
    dispatchedBeforeUpdate
      (iteration sampleHost sampleApp Statics.new MSG.zero
        { pending := [paintMsg, keyMsg], ui := idleInput, nextFrameIndex := 1 }).trace
      = [paintMsg] ∧
    (iteration sampleHost sampleApp Statics.new MSG.zero
        { pending := [paintMsg, keyMsg], ui := idleInput, nextFrameIndex := 1 }).rest
      = [keyMsg] := by
  simp [iteration, PeekMessage, dispatchedBeforeUpdate]

/-! ## Render -/

/-- C4: among the calls of `Render`, the command-list build, the resource
barriers, the UI draw and the submission occur in exactly this order: build,
barrier, UI draw, barrier, submission.  There are exactly two barriers, each a
single transition of `backBuffer[frameIndex]` (the frame index `Render` starts
with) over all subresources; the first goes from COPY_DEST to RENDER_TARGET,
the second from RENDER_TARGET to PRESENT. -/
theorem Render_barrier_pair (app : DXRApplication) (host : Host) (nextFrameIndex : Nat) :
    (Render app host nextFrameIndex).2.filterMap Call.renderMark =
      [ RenderMark.build,
        RenderMark.barrier 1
          { type := D3D12_RESOURCE_BARRIER_TYPE.TRANSITION, flags := 0,
            pResource := Resource.backBuffer app.d3d.frameIndex,
            Subresource := D3D12_RESOURCE_BARRIER_ALL_SUBRESOURCES,
            StateBefore := D3D12_RESOURCE_STATES.COPY_DEST,
            StateAfter := D3D12_RESOURCE_STATES.RENDER_TARGET },
        RenderMark.uiDraw,
        RenderMark.barrier 1
          { type := D3D12_RESOURCE_BARRIER_TYPE.TRANSITION, flags := 0,
            pResource := Resource.backBuffer app.d3d.frameIndex,
            Subresource := D3D12_RESOURCE_BARRIER_ALL_SUBRESOURCES,
            StateBefore := D3D12_RESOURCE_STATES.RENDER_TARGET,
            StateAfter := D3D12_RESOURCE_STATES.PRESENT },
        RenderMark.submit ] := by
  rfl

/-! ## Init -/

/-- C5 (as the code has it): for every configuration and host, when the
window is created the steps that `Init` performs are the steps of the spec in
the order of the spec, each once, with one more reset of the command list
(line 72) between the creation of the command list and the descriptor heaps,
so 31 steps.  Taking that one reset out leaves exactly the sequence of the
spec, and the last call of `Init` is the initialisation of the UI binding.
When the window cannot be created the only step performed is the window
creation. -/
theorem Init_spec_order_with_early_reset (app : DXRApplication) (config : ConfigInfo)
    (host : Host) :
    (Init app config host).trace.filterMap Call.step =
      (if Validate host.windowStatus then
        specOrder.take 9 ++ Step.commandListReset :: specOrder.drop 9
       else [Step.windowCreation]) ∧
    ((Init app config host).trace.filterMap Call.step).eraseIdx 9 =
      (if Validate host.windowStatus then specOrder else [Step.windowCreation]) ∧
    ((Init app config host).trace.filterMap Call.step).get? 9 =
      (if Validate host.windowStatus then some Step.commandListReset else none) ∧
    ((Init app config host).trace.filterMap Call.step).length =
      (if Validate host.windowStatus then 31 else 1) ∧
    ((Init app config host).trace.getLast?.bind Call.step =
      if Validate host.windowStatus then some Step.uiBinding else none) := by
  cases h : Validate host.windowStatus
  · simp only [Init, h]
    exact ⟨rfl, rfl, rfl, rfl, rfl⟩
  · simp only [Init, h]
    exact ⟨rfl, rfl, rfl, rfl, rfl⟩

/-- C5 fails as stated: with the window created, the steps `Init` performs are
not the sequence of the spec.  There are 31 of them against 30, and the
command list is first reset before the submission and before the GPU wait,
both of which the spec lists ahead of the reset. -/
theorem Init_steps_not_spec_order :
    (Init sampleApp sampleConfig sampleHost).trace.filterMap Call.step ≠ specOrder ∧
    ((Init sampleApp sampleConfig sampleHost).trace.filterMap Call.step).length = 31 ∧
    specOrder.length = 30 ∧
    ((Init sampleApp sampleConfig sampleHost).trace.filterMap Call.step).indexOf
        Step.commandListReset <
      ((Init sampleApp sampleConfig sampleHost).trace.filterMap Call.step).indexOf
        Step.submission ∧
    ((Init sampleApp sampleConfig sampleHost).trace.filterMap Call.step).indexOf
        Step.commandListReset <
      ((Init sampleApp sampleConfig sampleHost).trace.filterMap Call.step).indexOf
        Step.gpuWait ∧
    specOrder.indexOf Step.submission < specOrder.indexOf Step.commandListReset ∧
    specOrder.indexOf Step.gpuWait < specOrder.indexOf Step.commandListReset := by
  decide

/-! ## Cleanup -/

/-- C6 (as the code has it): `Cleanup` first waits for the GPU, then releases
the fence event handle, then tears down the UI (three calls), then destroys
the ray-tracing state, the GPU resources, the shader compiler state and the
graphics context, and last the window.  `Init`, when it returns, creates the
subsystems in the order window, shader compiler, graphics context, GPU
resources, ray-tracing state, UI; so the destruction order is the reverse of
the creation order except for the shader compiler, which is created before the
graphics context and also destroyed before it. -/
theorem Cleanup_order (app : DXRApplication) (config : ConfigInfo) (host : Host)
    (h : Validate host.windowStatus = true) :
    Cleanup.filterMap Call.cleanupMark =
      [ CleanupMark.gpuWait, CleanupMark.fenceHandleRelease,
        CleanupMark.destroy Subsystem.ui, CleanupMark.destroy Subsystem.ui,
        CleanupMark.destroy Subsystem.ui,
        CleanupMark.destroy Subsystem.rayTracing, CleanupMark.destroy Subsystem.gpuResources,
        CleanupMark.destroy Subsystem.shaderCompiler,
        CleanupMark.destroy Subsystem.graphicsContext, CleanupMark.destroy Subsystem.window ] ∧
    (Cleanup.filterMap Call.cleanupMark).length = Cleanup.length ∧
    createdOrder (Init app config host).trace =
      [ Subsystem.window, Subsystem.shaderCompiler, Subsystem.graphicsContext,
        Subsystem.gpuResources, Subsystem.rayTracing, Subsystem.ui ] ∧
    destroyedOrder Cleanup =
      [ Subsystem.ui, Subsystem.rayTracing, Subsystem.gpuResources,
        Subsystem.shaderCompiler, Subsystem.graphicsContext, Subsystem.window ] := by
  refine ⟨by rfl, by rfl, ?_, by decide⟩
  simp only [Init, h, if_true]
  rfl

theorem Cleanup_order_witness :
    Validate sampleHost.windowStatus = true ∧
    (Cleanup.filterMap Call.cleanupMark =
      [ CleanupMark.gpuWait, CleanupMark.fenceHandleRelease,
        CleanupMark.destroy Subsystem.ui, CleanupMark.destroy Subsystem.ui,
        CleanupMark.destroy Subsystem.ui,
        CleanupMark.destroy Subsystem.rayTracing, CleanupMark.destroy Subsystem.gpuResources,
        CleanupMark.destroy Subsystem.shaderCompiler,
        CleanupMark.destroy Subsystem.graphicsContext, CleanupMark.destroy Subsystem.window ] ∧
     (Cleanup.filterMap Call.cleanupMark).length = Cleanup.length ∧
     createdOrder (Init sampleApp sampleConfig sampleHost).trace =
      [ Subsystem.window, Subsystem.shaderCompiler, Subsystem.graphicsContext,
        Subsystem.gpuResources, Subsystem.rayTracing, Subsystem.ui ] ∧
     destroyedOrder Cleanup =
      [ Subsystem.ui, Subsystem.rayTracing, Subsystem.gpuResources,
        Subsystem.shaderCompiler, Subsystem.graphicsContext, Subsystem.window ]) :=
  ⟨by decide, Cleanup_order sampleApp sampleConfig sampleHost (by decide)⟩

/-- C6 fails as stated: the order in which `Cleanup` destroys the subsystems
is not the reverse of the order in which `Init` created them. -/
theorem Cleanup_not_reverse_of_Init :
    destroyedOrder Cleanup ≠
      (createdOrder (Init sampleApp sampleConfig sampleHost).trace).reverse := by
  decide

/-! ## Status checking in Init -/

/-- C7 (what the code does): `Init` returns exactly when the status of the
window is not a failure, whatever the status of `d3d.cmdList->Close()` is.
The status of `Close` changes neither the steps performed nor their order:
after `Close`, failed or not, come the submission, the GPU wait, the reset and
the UI set-up.  At the failing input (window created, `Close` reports
`E_FAIL`) `Init` performs every step of the spec and returns. -/
theorem Init_ignores_Close_status (app : DXRApplication) (config : ConfigInfo) (host : Host)
    (hr : HRESULT) :
    (Init app config { host with closeStatus := hr }).returned = !FAILED host.windowStatus ∧
    (Init app config { host with closeStatus := hr }).trace.filterMap Call.step =
      (Init app config host).trace.filterMap Call.step ∧
    (Init app config { host with closeStatus := hr }).trace.drop 28 =
      (if Validate host.windowStatus then
        [ Call.cmdList_Close hr, Call.cmdQueue_ExecuteCommandLists 1, Call.D3D12_WaitForGPU,
          Call.D3D12_Reset_CommandList ] ++ Init_imgui host
       else []) ∧
    FAILED E_FAIL = true ∧
    (Init sampleApp sampleConfig { sampleHost with closeStatus := E_FAIL }).returned
      = true ∧
    List.Sublist specOrder
      ((Init sampleApp sampleConfig
        { sampleHost with closeStatus := E_FAIL }).trace.filterMap Call.step) := by
  refine ⟨?_, ?_, ?_, by decide, by decide, by decide⟩
  · cases h : FAILED host.windowStatus <;> simp [Init, Validate, h]
  · cases h : FAILED host.windowStatus
    · simp only [Init, Validate, h]
      rfl
    · simp only [Init, Validate, h]
      rfl
  · cases h : FAILED host.windowStatus
    · simp only [Init, Validate, h]
      rfl
    · simp only [Init, Validate, h]
      rfl

/-! ## Samples per pixel -/

/-- What `Update` does to `nSamples`: it is the value the slider leaves.  A
drag stores a value of [1,4], and without a drag the value is unchanged. -/
theorem Update_nSamples (app : DXRApplication) (st : Statics) (inp : UIInput) :
    (Update app st inp).1.resources.viewCBData.nSamples =
      (SliderInt app.resources.viewCBData.nSamples 1 4 inp.slider).1 ∧
    (∀ d, 1 ≤ (SliderInt app.resources.viewCBData.nSamples 1 4 (some d)).1 ∧
      (SliderInt app.resources.viewCBData.nSamples 1 4 (some d)).1 ≤ 4) ∧
    (SliderInt app.resources.viewCBData.nSamples 1 4 none).1 =
      app.resources.viewCBData.nSamples := by
  refine ⟨rfl, ?_, rfl⟩
  intro d
  simp only [SliderInt]
  exact ⟨le_max_left _ _, max_le (by norm_num) (min_le_right _ _)⟩

/-! ## CPU/GPU synchronisation -/

theorem Sync.run_append (s : Sync) (a b : List Call) :
    Sync.run s (a ++ b) = (Sync.run s a).bind (fun s1 => Sync.run s1 b) := by
  induction a generalizing s with
  | nil => rfl
  | cons c cs ih =>
    simp only [List.cons_append, Sync.run]
    cases h : s.step c with
    | none => rfl
    | some s1 => simpa using ih s1

theorem Sync.run_Update (s : Sync) (app : DXRApplication) (st : Statics) (inp : UIInput) :
    Sync.run s (Update app st inp).2.2 = some s := by
  simp only [Update]
  cases st.show_demo_window <;> cases Checkbox st.show_another_window inp.anotherToggled <;> rfl

theorem Sync.run_Render (app : DXRApplication) (host : Host) (n : Nat) :
    Sync.run Sync.idle (Render app host n).2 = some Sync.idle := by
  rfl

theorem Sync.run_frameCalls (host : Host) (app : DXRApplication) (st : Statics)
    (frames : List Frame) :
    Sync.run Sync.idle (frameCalls host app st frames) = some Sync.idle := by
  induction frames generalizing app st with
  | nil => rfl
  | cons fr frs ih =>
    simp only [frameCalls, Sync.run_append, Sync.run_Update, Sync.run_Render, Option.some_bind, ih]

theorem submissions_append (a b : List Call) :
    submissions (a ++ b) = submissions a + submissions b := by
  simp [submissions, List.filterMap_append, List.count_append]

theorem submissions_Update (app : DXRApplication) (st : Statics) (inp : UIInput) :
    submissions (Update app st inp).2.2 = 0 := by
  simp only [Update]
  cases st.show_demo_window <;> cases Checkbox st.show_another_window inp.anotherToggled <;> rfl

theorem submissions_frameCalls (host : Host) (app : DXRApplication) (st : Statics)
    (frames : List Frame) :
    submissions (frameCalls host app st frames) = frames.length := by
  induction frames generalizing app st with
  | nil => rfl
  | cons fr frs ih =>
    have hr : submissions (Render (Update app st fr.ui).1 host fr.nextFrameIndex).2 = 1 := rfl
    simp only [frameCalls, submissions_append, submissions_Update, hr, ih, List.length_cons]
    omega

theorem Sync.flying_le_one (s : Sync) : s.flying ≤ 1 := by
  cases s with
  | idle => simp [Sync.flying]
  | pending k => cases k <;> simp [Sync.flying]

/-- The monitor rejects a submission that is reset without a wait, a second
wait before the reset, and a second submission before the wait. -/
theorem synchronised_rejects :
    synchronised [Call.D3D12_Submit_CmdList, Call.D3D12_Reset_CommandList] = false ∧
    synchronised [Call.D3D12_Submit_CmdList, Call.D3D12_WaitForGPU, Call.D3D12_WaitForGPU,
      Call.D3D12_Reset_CommandList] = false ∧
    synchronised [Call.D3D12_Submit_CmdList, Call.D3D12_Submit_CmdList, Call.D3D12_WaitForGPU,
      Call.D3D12_Reset_CommandList] = false ∧
    synchronised [Call.D3D12_Submit_CmdList, Call.D3D12_WaitForGPU] = false := by
  decide

theorem Sync.step_flying (s s1 : Sync) (c : Call) (rest : List Call)
    (hs : s.step c = some s1) :
    inFlightFrom s.flying (c :: rest) = inFlightFrom s1.flying rest := by
  cases hc : c.step with
  | none =>
    have : s = s1 := by simpa [Sync.step, hc] using hs
    subst this
    simp [inFlightFrom, hc]
  | some st =>
    cases s with
    | idle =>
      cases st <;> simp [Sync.step, hc] at hs <;> subst hs <;>
        simp [inFlightFrom, hc, Sync.flying]
    | pending k =>
      cases st <;> simp [Sync.step, hc] at hs <;>
        first
          | (subst hs; simp [inFlightFrom, hc, Sync.flying])
          | (obtain ⟨hk, hs⟩ := hs; subst hk; subst hs; simp [inFlightFrom, hc, Sync.flying])

/-- A trace the monitor accepts never has more than one submission in flight. -/
theorem Sync.run_inFlight (t : List Call) (s s2 : Sync) (h : Sync.run s t = some s2) (k : Nat) :
    inFlightFrom s.flying (t.take k) ≤ 1 := by
  induction t generalizing s k with
  | nil => simpa [inFlightFrom] using Sync.flying_le_one s
  | cons c cs ih =>
    cases k with
    | zero => simpa [inFlightFrom] using Sync.flying_le_one s
    | succ k =>
      simp only [Sync.run] at h
      cases hs : s.step c with
      | none => simp [hs] at h
      | some s1 =>
        rw [hs] at h
        have h1 : Sync.run s1 cs = some s2 := by simpa using h
        rw [List.take_succ_cons, Sync.step_flying s s1 c _ hs]
        exact ih s1 h1 k

theorem Sync.run_session (app0 : DXRApplication) (config : ConfigInfo) (host : Host)
    (frames : List Frame) :
    Sync.run Sync.idle (session app0 config host frames) = some Sync.idle := by
  cases h : Validate host.windowStatus
  · simp only [session, Init, h]
    rfl
  · have hi : Sync.run Sync.idle
        (Init_window config host ++ Init_create config ++ Init_submit host ++ Init_imgui host)
        = some Sync.idle := rfl
    simp only [session, Init, h, if_true, Sync.run_append _ _ (frameCalls _ _ _ _),
      hi, Option.some_bind, Sync.run_frameCalls]

/-- C3: in the calls of `Init` followed by the calls of any number of frames
(`Update` then `Render`), for every host, configuration and user input, every
command-list submission is followed by exactly one `WaitForGPU` before the
next `Reset_CommandList`, and no submission is made while another is pending.
When `Init` returns there are one submission for `Init` and one per frame.
At no point of the trace is more than one submission in flight. -/
theorem session_synchronised (app0 : DXRApplication) (config : ConfigInfo) (host : Host)
    (frames : List Frame) :
    synchronised (session app0 config host frames) = true ∧
    submissions (session app0 config host frames) =
      (if Validate host.windowStatus then frames.length + 1 else 0) ∧
    ∀ k, inFlight ((session app0 config host frames).take k) ≤ 1 := by
  have hrun := Sync.run_session app0 config host frames
  refine ⟨by simp [synchronised, hrun], ?_, ?_⟩
  · cases h : Validate host.windowStatus
    · simp only [session, Init, h]
      rfl
    · have hs : submissions
          (Init_window config host ++ Init_create config ++ Init_submit host ++ Init_imgui host)
          = 1 := rfl
      simp only [session, Init, h, if_true, submissions_append, hs, submissions_frameCalls]
      omega
  · intro k
    exact Sync.run_inFlight _ Sync.idle Sync.idle hrun k

/-! ## The host loop -/

theorem iteration_kinds (host : Host) (app : DXRApplication) (st : Statics) (msg : MSG)
    (fr : Frame) : (iteration host app st msg fr).trace.map MainCall.kind = fr.kinds := by
  cases hp : fr.pending with
  | nil => simp [iteration, PeekMessage, hp, Frame.kinds, MainCall.kind]
  | cons m rest => simp [iteration, PeekMessage, hp, Frame.kinds, MainCall.kind]

theorem iteration_msg_not_quit (host : Host) (app : DXRApplication) (st : Statics) (msg : MSG)
    (fr : Frame) (hm : WM_QUIT ≠ msg.message) (hf : fr.retrievesQuit = false) :
    WM_QUIT ≠ (iteration host app st msg fr).msg.message := by
  cases hp : fr.pending with
  | nil => simpa [iteration, PeekMessage, hp] using hm
  | cons m rest =>
    have hq : ¬ m.message = WM_QUIT := by
      simpa [Frame.retrievesQuit, PeekMessage, hp] using hf
    simpa [iteration, PeekMessage, hp] using fun h => hq h.symm

theorem iteration_msg_quit (host : Host) (app : DXRApplication) (st : Statics) (msg : MSG)
    (fr : Frame) (hf : fr.retrievesQuit = true) :
    WM_QUIT = (iteration host app st msg fr).msg.message := by
  cases hp : fr.pending with
  | nil => simp [Frame.retrievesQuit, PeekMessage, hp] at hf
  | cons m rest =>
    have hq : m.message = WM_QUIT := by
      simpa [Frame.retrievesQuit, PeekMessage, hp] using hf
    simpa [iteration, PeekMessage, hp] using hq.symm

theorem mainLoop_exits_on_quit (host : Host) (app : DXRApplication) (st : Statics) (msg : MSG)
    (frames : List Frame) (hm : WM_QUIT = msg.message) :
    mainLoop host app st msg frames = ([], true) := by
  cases frames with
  | nil => simp [mainLoop, hm]
  | cons fr frs => simp [mainLoop, hm]

/-- The loop runs its body once for every frame up to and including the first
one in which a quit message is retrieved, and is then left. -/
theorem mainLoop_until_quit (host : Host) (pre : List Frame) (fq : Frame) (rest : List Frame)
    (app : DXRApplication) (st : Statics) (msg : MSG)
    (hm : WM_QUIT ≠ msg.message)
    (hpre : ∀ f ∈ pre, f.retrievesQuit = false) (hq : fq.retrievesQuit = true) :
    mainLoop host app st msg (pre ++ fq :: rest) =
      ((runFrames host app st msg (pre ++ [fq])).2, true) := by
  induction pre generalizing app st msg with
  | nil =>
    have hx := iteration_msg_quit host app st msg fq hq
    simp [mainLoop, runFrames, hm, mainLoop_exits_on_quit host _ _ _ rest hx]
  | cons f fs ih =>
    have hf : f.retrievesQuit = false := hpre f (List.mem_cons_self _ _)
    have hfs : ∀ g ∈ fs, g.retrievesQuit = false := fun g hg => hpre g (List.mem_cons_of_mem _ hg)
    have hn := iteration_msg_not_quit host app st msg f hm hf
    have := ih (iteration host app st msg f).app (iteration host app st msg f).st
      (iteration host app st msg f).msg hn hfs
    simp [mainLoop, runFrames, hm, this]

theorem runFrames_kinds (host : Host) (frames : List Frame) (app : DXRApplication)
    (st : Statics) (msg : MSG) :
    (runFrames host app st msg frames).2.map MainCall.kind = (frames.map Frame.kinds).flatten := by
  induction frames generalizing app st msg with
  | nil => rfl
  | cons f fs ih => simp [runFrames, iteration_kinds, ih]

theorem kinds_lifecycle (frames : List Frame) :
    (frames.map Frame.kinds).flatten.filter Kind.isLifecycle =
      (List.replicate frames.length [Kind.update, Kind.render]).flatten := by
  induction frames with
  | nil => rfl
  | cons f fs ih =>
    have hf : f.kinds.filter Kind.isLifecycle = [Kind.update, Kind.render] := by
      cases hp : f.pending <;> simp [Frame.kinds, hp, Kind.isLifecycle]
    simp [List.replicate_succ, hf, ih]

theorem kinds_count_update (frames : List Frame) :
    (frames.map Frame.kinds).flatten.count Kind.update = frames.length := by
  induction frames with
  | nil => rfl
  | cons f fs ih =>
    have hf : f.kinds.count Kind.update = 1 := by
      cases hp : f.pending <;> simp [Frame.kinds, hp]
    simp [List.count_append, hf, ih]
    omega

theorem kinds_count_render (frames : List Frame) :
    (frames.map Frame.kinds).flatten.count Kind.render = frames.length := by
  induction frames with
  | nil => rfl
  | cons f fs ih =>
    have hf : f.kinds.count Kind.render = 1 := by
      cases hp : f.pending <;> simp [Frame.kinds, hp]
    simp [List.count_append, hf, ih]
    omega

theorem runFrames_append (host : Host) (pre : List Frame) (fq : Frame) (app : DXRApplication)
    (st : Statics) (msg : MSG) :
    (runFrames host app st msg (pre ++ [fq])).2 =
      (runFrames host app st msg pre).2 ++
        (iteration host (runFrames host app st msg pre).1.1 (runFrames host app st msg pre).1.2.1
          (runFrames host app st msg pre).1.2.2 fq).trace := by
  induction pre generalizing app st msg with
  | nil => simp [runFrames]
  | cons f fs ih => simp [runFrames, ih]

theorem iteration_trace_of_pending (host : Host) (app : DXRApplication) (st : Statics)
    (msg : MSG) (fr : Frame) (q : MSG) (qs : List MSG) (hq : fr.pending = q :: qs) :
    ∃ tu tr, (iteration host app st msg fr).trace =
      [MainCall.PeekMessage true, MainCall.TranslateMessage q, MainCall.DispatchMessage q,
        MainCall.Update tu, MainCall.Render tr] :=
  ⟨(Update app st fr.ui).2.2, (Render (Update app st fr.ui).1 host fr.nextFrameIndex).2, by
    simp [iteration, PeekMessage, hq]⟩

theorem Init_returned (app : DXRApplication) (config : ConfigInfo) (host : Host) :
    (Init app config host).returned = Validate host.windowStatus := by
  cases h : Validate host.windowStatus <;> simp [Init, h]

/-- The trace of a run that parses, initialises and retrieves the quit
message in the frame `fq`. -/
theorem wWinMain_trace (parse : String → HRESULT × ConfigInfo) (debug : Bool)
    (lpCmdLine : String) (app0 : DXRApplication) (host : Host) (pre : List Frame) (fq : Frame)
    (rest : List Frame)
    (hp : (parse lpCmdLine).1 = EXIT_SUCCESS) (hw : Validate host.windowStatus = true)
    (hpre : ∀ f ∈ pre, f.retrievesQuit = false) (hq : fq.retrievesQuit = true) :
    wWinMain parse debug lpCmdLine app0 host (pre ++ fq :: rest) =
      { trace :=
          [MainCall.ParseCommandLine lpCmdLine,
            MainCall.Init (Init app0 (parse lpCmdLine).2 host).trace] ++
          (runFrames host (Init app0 (parse lpCmdLine).2 host).app Statics.new
            MSG.zero (pre ++ [fq])).2 ++
          [MainCall.Cleanup Cleanup] ++ (if debug then [MainCall.CrtDumpMemoryLeaks] else []),
        exit := Exit.returned EXIT_SUCCESS } := by
  have h0 : WM_QUIT ≠ MSG.zero.message := by decide
  have hl := mainLoop_until_quit host pre fq rest
    (Init app0 (parse lpCmdLine).2 host).app Statics.new MSG.zero h0 hpre hq
  cases debug <;> simp [wWinMain, hp, Init_returned, hw, hl]

/-- C9: in every run of `wWinMain` in which the command line parses, `Init`
returns, and `PeekMessage` retrieves the quit message for the first time in
some iteration (the one run in frame `fq`, after the iterations of `pre`),
`wWinMain` returns `EXIT_SUCCESS` and its calls are: `ParseCommandLine`,
`Init`, then for each iteration the peek, the translation and dispatch of the
message retrieved if there was one, `Update` and right after it `Render`, then
`Cleanup` (and the leak dump of debug builds).  So the lifecycle calls are
`Init` once, `Update` and `Render` in pairs, and `Cleanup` once, last. -/
theorem wWinMain_lifecycle (parse : String → HRESULT × ConfigInfo) (debug : Bool)
    (lpCmdLine : String) (app0 : DXRApplication) (host : Host) (pre : List Frame) (fq : Frame)
    (rest : List Frame)
    (hp : (parse lpCmdLine).1 = EXIT_SUCCESS) (hw : Validate host.windowStatus = true)
    (hpre : ∀ f ∈ pre, f.retrievesQuit = false) (hq : fq.retrievesQuit = true) :
    (wWinMain parse debug lpCmdLine app0 host (pre ++ fq :: rest)).exit = Exit.returned EXIT_SUCCESS ∧
    (wWinMain parse debug lpCmdLine app0 host (pre ++ fq :: rest)).trace.map MainCall.kind =
      [Kind.parseCommandLine, Kind.init] ++ ((pre ++ [fq]).map Frame.kinds).flatten ++
        [Kind.cleanup] ++ (if debug then [Kind.dumpMemoryLeaks] else []) ∧
    ((wWinMain parse debug lpCmdLine app0 host (pre ++ fq :: rest)).trace.map MainCall.kind).filter
        Kind.isLifecycle =
      [Kind.init] ++ (List.replicate (pre.length + 1) [Kind.update, Kind.render]).flatten ++
        [Kind.cleanup] := by
  rw [wWinMain_trace parse debug lpCmdLine app0 host pre fq rest hp hw hpre hq]
  have hk := runFrames_kinds host (pre ++ [fq])
    (Init app0 (parse lpCmdLine).2 host).app Statics.new MSG.zero
  have hlc := kinds_lifecycle (pre ++ [fq])
  have hlen : (pre ++ [fq]).length = pre.length + 1 := by simp
  rw [hlen] at hlc
  generalize pre ++ [fq] = fs at hk hlc
  generalize (runFrames host (Init app0 (parse lpCmdLine).2 host).app Statics.new
    MSG.zero fs).2 = t at hk
  refine ⟨rfl, ?_, ?_⟩
  · cases debug <;> simp [hk, MainCall.kind]
  · cases debug <;>
      simp only [List.map_append, hk, List.filter_append, hlc] <;>
      simp [MainCall.kind, Kind.isLifecycle]

theorem wWinMain_lifecycle_witness :
    (acceptingParse "quad.obj").1 = EXIT_SUCCESS ∧
    Validate sampleHost.windowStatus = true ∧
    (∀ f ∈ [busyFrame, quietFrame], f.retrievesQuit = false) ∧
    quitFrame.retrievesQuit = true ∧
    ((wWinMain acceptingParse true "quad.obj" sampleApp sampleHost
        ([busyFrame, quietFrame] ++ quitFrame :: [quietFrame])).exit
      = Exit.returned EXIT_SUCCESS ∧
     (wWinMain acceptingParse true "quad.obj" sampleApp sampleHost
        ([busyFrame, quietFrame] ++ quitFrame :: [quietFrame])).trace.map MainCall.kind =
      [Kind.parseCommandLine, Kind.init] ++
        (([busyFrame, quietFrame] ++ [quitFrame]).map Frame.kinds).flatten ++
        [Kind.cleanup] ++ (if true then [Kind.dumpMemoryLeaks] else []) ∧
     ((wWinMain acceptingParse true "quad.obj" sampleApp sampleHost
        ([busyFrame, quietFrame] ++ quitFrame :: [quietFrame])).trace.map MainCall.kind).filter
        Kind.isLifecycle =
      [Kind.init] ++
        (List.replicate ([busyFrame, quietFrame].length + 1) [Kind.update, Kind.render]).flatten ++
        [Kind.cleanup]) :=
  ⟨by decide, by decide, by decide, by decide,
   wWinMain_lifecycle acceptingParse true "quad.obj" sampleApp sampleHost [busyFrame, quietFrame] quitFrame
    [quietFrame] (by decide) (by decide) (by decide) (by decide)⟩

/-- C10: the loop tests for the quit message only at its top.  In every run
in which the command line parses, `Init` returns, and the quit message `q` is
first retrieved in iteration `pre.length + 1`, that iteration still translates
and dispatches `q` and calls `Update` and `Render`; the next call is
`Cleanup`.  The run makes exactly `pre.length + 1` calls of `Update` and as
many of `Render`, so at least one of each. -/
theorem wWinMain_quit_iteration (parse : String → HRESULT × ConfigInfo) (debug : Bool)
    (lpCmdLine : String) (app0 : DXRApplication) (host : Host) (pre : List Frame) (fq : Frame)
    (rest : List Frame)
    (q : MSG) (qs : List MSG)
    (hp : (parse lpCmdLine).1 = EXIT_SUCCESS) (hw : Validate host.windowStatus = true)
    (hpre : ∀ f ∈ pre, f.retrievesQuit = false)
    (hq : fq.pending = q :: qs) (hm : q.message = WM_QUIT) :
    (∃ before tu tr,
      (wWinMain parse debug lpCmdLine app0 host (pre ++ fq :: rest)).trace =
        before ++
          [MainCall.PeekMessage true, MainCall.TranslateMessage q, MainCall.DispatchMessage q,
            MainCall.Update tu, MainCall.Render tr, MainCall.Cleanup Cleanup] ++
          (if debug then [MainCall.CrtDumpMemoryLeaks] else [])) ∧
    ((wWinMain parse debug lpCmdLine app0 host (pre ++ fq :: rest)).trace.map MainCall.kind).count
        Kind.update = pre.length + 1 ∧
    ((wWinMain parse debug lpCmdLine app0 host (pre ++ fq :: rest)).trace.map MainCall.kind).count
        Kind.render = pre.length + 1 ∧
    1 ≤ ((wWinMain parse debug lpCmdLine app0 host (pre ++ fq :: rest)).trace.map MainCall.kind).count
        Kind.render := by
  have hfq : fq.retrievesQuit = true := by
    simp [Frame.retrievesQuit, PeekMessage, hq, hm]
  rw [wWinMain_trace parse debug lpCmdLine app0 host pre fq rest hp hw hpre hfq]
  have hk := runFrames_kinds host (pre ++ [fq])
    (Init app0 (parse lpCmdLine).2 host).app Statics.new MSG.zero
  have hu := kinds_count_update (pre ++ [fq])
  have hr := kinds_count_render (pre ++ [fq])
  have hlen : (pre ++ [fq]).length = pre.length + 1 := by simp
  rw [hlen] at hu hr
  have hap := runFrames_append host pre fq
    (Init app0 (parse lpCmdLine).2 host).app Statics.new MSG.zero
  generalize pre ++ [fq] = fs at hk hu hr hap
  generalize (runFrames host (Init app0 (parse lpCmdLine).2 host).app Statics.new
    MSG.zero fs).2 = t at hk hap
  have hcu : ((([MainCall.ParseCommandLine lpCmdLine,
            MainCall.Init (Init app0 (parse lpCmdLine).2 host).trace] ++ t ++
          [MainCall.Cleanup Cleanup] ++ (if debug then [MainCall.CrtDumpMemoryLeaks] else [])).map
          MainCall.kind).count Kind.update) = pre.length + 1 := by
    cases debug <;>
      simp only [List.map_append, hk, List.count_append, hu] <;>
      simp [MainCall.kind]
  have hcr : ((([MainCall.ParseCommandLine lpCmdLine,
            MainCall.Init (Init app0 (parse lpCmdLine).2 host).trace] ++ t ++
          [MainCall.Cleanup Cleanup] ++ (if debug then [MainCall.CrtDumpMemoryLeaks] else [])).map
          MainCall.kind).count Kind.render) = pre.length + 1 := by
    cases debug <;>
      simp only [List.map_append, hk, List.count_append, hr] <;>
      simp [MainCall.kind]
  refine ⟨?_, hcu, hcr, ?_⟩
  · obtain ⟨tu, tr, hit⟩ := iteration_trace_of_pending host
      (runFrames host (Init app0 (parse lpCmdLine).2 host).app Statics.new
        MSG.zero pre).1.1
      (runFrames host (Init app0 (parse lpCmdLine).2 host).app Statics.new
        MSG.zero pre).1.2.1
      (runFrames host (Init app0 (parse lpCmdLine).2 host).app Statics.new
        MSG.zero pre).1.2.2 fq q qs hq
    refine ⟨[MainCall.ParseCommandLine lpCmdLine,
        MainCall.Init (Init app0 (parse lpCmdLine).2 host).trace] ++
        (runFrames host (Init app0 (parse lpCmdLine).2 host).app Statics.new
          MSG.zero pre).2, tu, tr, ?_⟩
    rw [hap, hit]
    simp
  · rw [hcr]
    omega

theorem wWinMain_quit_iteration_witness :
    (acceptingParse "quad.obj").1 = EXIT_SUCCESS ∧
    Validate sampleHost.windowStatus = true ∧
    (∀ f ∈ [quietFrame, busyFrame], f.retrievesQuit = false) ∧
    quitFrame.pending = quitMsg :: [] ∧
    quitMsg.message = WM_QUIT ∧
    ((∃ before tu tr,
      (wWinMain acceptingParse false "quad.obj" sampleApp sampleHost
        ([quietFrame, busyFrame] ++ quitFrame :: [])).trace =
        before ++
          [MainCall.PeekMessage true, MainCall.TranslateMessage quitMsg,
            MainCall.DispatchMessage quitMsg,
            MainCall.Update tu, MainCall.Render tr, MainCall.Cleanup Cleanup] ++
          (if false then [MainCall.CrtDumpMemoryLeaks] else [])) ∧
     ((wWinMain acceptingParse false "quad.obj" sampleApp sampleHost
        ([quietFrame, busyFrame] ++ quitFrame :: [])).trace.map MainCall.kind).count
        Kind.update = [quietFrame, busyFrame].length + 1 ∧
     ((wWinMain acceptingParse false "quad.obj" sampleApp sampleHost
        ([quietFrame, busyFrame] ++ quitFrame :: [])).trace.map MainCall.kind).count
        Kind.render = [quietFrame, busyFrame].length + 1 ∧
     1 ≤ ((wWinMain acceptingParse false "quad.obj" sampleApp sampleHost
        ([quietFrame, busyFrame] ++ quitFrame :: [])).trace.map MainCall.kind).count
        Kind.render) :=
  ⟨by decide, by decide, by decide, rfl, by decide,
   wWinMain_quit_iteration acceptingParse false "quad.obj" sampleApp sampleHost [quietFrame, busyFrame]
    quitFrame [] quitMsg [] (by decide) (by decide) (by decide) rfl (by decide)⟩

end IntroToDXR
